import Mathlib

/-!
Verification of the to-do list application in `src/script.js`.

The program keeps a single mutable state record
`{ hideCompleted, formIsValid, todos }` and re-renders the whole view
after every mutation.  We embed the state, the view-facing part of the
document tree, and the four event handlers as pure Lean functions with
explicit state passing.  Document mutation is modelled by a `DOM` record
holding the pieces of the page the script touches: the `ul` child rows,
the `pre` helper text, the form class name, and the text input's value
and focus flag.
-/

/-- A to-do record, as created by `handleSubmit` and the seed state:
`{ text, completed }`. -/
structure Item where
  text : String
  completed : Bool
deriving DecidableEq, Repr

/-- The app's state object from the top of `script.js`:
`{ hideCompleted, formIsValid, todos }`. -/
structure AppState where
  hideCompleted : Bool
  formIsValid : Bool
  todos : List Item
deriving DecidableEq, Repr

/-- The seed state the script starts with. -/
def initialState : AppState :=
  ⟨false, false,
    [⟨"buy milk", true⟩, ⟨"clean kitchen", false⟩, ⟨"learn js", false⟩]⟩

/-- One rendered `li` row: its text node and its class name
(`"is-done"` when the item is completed, otherwise the default `""`). -/
structure Row where
  text : String
  className : String
deriving DecidableEq, Repr

/-- The parts of the document the script reads or writes:
the `#todos ul` children, the `#todos pre` helper text, the form's
class name, and the text input's value and focus flag. -/
structure DOM where
  listChildren : List Row
  helperHTML : String
  formClassName : String
  inputValue : String
  inputFocused : Bool
deriving DecidableEq, Repr

/-- `getVisibleTodos`: filters `state.todos` with
`state.hideCompleted ? !item.completed : true`. -/
def getVisibleTodos (s : AppState) : List Item :=
  s.todos.filter fun item => if s.hideCompleted then !item.completed else true

/-- `getHelperMessage`: `getVisibleTodos().length ? null : 'Create your first task!'`.
`null` is modelled as `none`. -/
def getHelperMessage (s : AppState) : Option String :=
  if (getVisibleTodos s).length = 0 then some "Create your first task!" else none

/-- `getFormClassName`: `state.formIsValid ? 'is-valid' : ''`. -/
def getFormClassName (s : AppState) : String :=
  if s.formIsValid then "is-valid" else ""

/-- The `li` built by `renderDOMListItem`: a text node with the item's
text, and class `is-done` exactly when the item is completed. -/
def renderRow (item : Item) : Row :=
  ⟨item.text, if item.completed then "is-done" else ""⟩

/-- `resetDOMList`: removes every child of `#todos ul`. -/
def resetDOMList (d : DOM) : DOM :=
  { d with listChildren := [] }

/-- `renderDOMListItem`: builds the row for one item and appends it to
`#todos ul`. -/
def renderDOMListItem (item : Item) (d : DOM) : DOM :=
  { d with listChildren := d.listChildren ++ [renderRow item] }

/-- `renderDOMList`: `getVisibleTodos().forEach(renderDOMListItem)`. -/
def renderDOMList (s : AppState) (d : DOM) : DOM :=
  List.foldl (fun acc item => renderDOMListItem item acc) d (getVisibleTodos s)

/-- `renderDOMHelperMessage`: assigns `getHelperMessage()` to the `pre`
element's `innerHTML`; assigning `null` yields the empty string. -/
def renderDOMHelperMessage (s : AppState) (d : DOM) : DOM :=
  { d with helperHTML := (getHelperMessage s).getD "" }

/-- `renderDOMFormStatus`: assigns `getFormClassName()` to the form's
class name. -/
def renderDOMFormStatus (s : AppState) (d : DOM) : DOM :=
  { d with formClassName := getFormClassName s }

/-- `render`: reset the list, rebuild it, then refresh the form status
and the helper message, in the source's order. -/
def render (s : AppState) (d : DOM) : DOM :=
  renderDOMHelperMessage s (renderDOMFormStatus s (renderDOMList s (resetDOMList d)))

/-- The view-relevant projection of the document: rows, helper text and
form class (the input's value and focus are form state, not view). -/
structure View where
  rows : List Row
  helperHTML : String
  formClassName : String
deriving DecidableEq, Repr

/-- Project the rendered view out of the document. -/
def viewOf (d : DOM) : View :=
  ⟨d.listChildren, d.helperHTML, d.formClassName⟩

/-- The pure view function of the state: the spec's
`render(filter(items, hideCompleted))` projection. -/
def renderView (s : AppState) : View :=
  ⟨(getVisibleTodos s).map renderRow, (getHelperMessage s).getD "", getFormClassName s⟩

/-- `handleSubmit`: reads the text input; `if (!textEl.value) return`,
otherwise pushes `{ completed: false, text: textEl.value }`, calls
`render()`, then clears and refocuses the input. -/
def handleSubmit (s : AppState) (d : DOM) : AppState × DOM :=
  if d.inputValue = "" then (s, d)
  else
    let s2 : AppState := { s with todos := s.todos ++ [⟨d.inputValue, false⟩] }
    let d2 : DOM := render s2 d
    (s2, { d2 with inputValue := "", inputFocused := true })

/-- The side-effecting steps `handleSubmit` performs, in order. -/
inductive SubmitStep where
  | preventDefault
  | stopPropagation
  | guardReturn
  | pushTodo
  | renderCall
  | clearInput
  | focusInput
deriving DecidableEq, Repr

/-- The ordered trace of steps `handleSubmit` executes for a given
input value: the guard returns first on the empty string, otherwise the
push, the render, the clear and the focus run in source order. -/
def handleSubmitTrace (value : String) : List SubmitStep :=
  if value = "" then
    [SubmitStep.preventDefault, SubmitStep.stopPropagation, SubmitStep.guardReturn]
  else
    [SubmitStep.preventDefault, SubmitStep.stopPropagation, SubmitStep.pushTodo,
      SubmitStep.renderCall, SubmitStep.clearInput, SubmitStep.focusInput]

/-- The click listener body attached to each row:
`item.completed = !item.completed`. -/
def flipItem (item : Item) : Item :=
  { item with completed := !item.completed }

/-- Toggle the item at position `i` of the list, leaving the rest in
place: the effect of the row listener's by-reference mutation. -/
def toggleAt : List Item → Nat → List Item
  | [], _ => []
  | item :: rest, 0 => flipItem item :: rest
  | item :: rest, Nat.succ n => item :: toggleAt rest n

/-- Clicking the row whose listener captured the item at position `i`:
flip that item, then `render()`. -/
def clickTodo (s : AppState) (i : Nat) (d : DOM) : AppState × DOM :=
  let s2 : AppState := { s with todos := toggleAt s.todos i }
  (s2, render s2 d)

/-- `handleForm`: `state.formIsValid = (e.target.value.length > 0)`,
then `render()`. -/
def handleForm (s : AppState) (v : String) (d : DOM) : AppState × DOM :=
  let s2 : AppState := { s with formIsValid := decide (v.length > 0) }
  (s2, render s2 d)

/-- `handleHide`: `state.hideCompleted = e.target.checked`, then
`render()`. -/
def handleHide (s : AppState) (checked : Bool) (d : DOM) : AppState × DOM :=
  let s2 : AppState := { s with hideCompleted := checked }
  (s2, render s2 d)

/-- The visible-item predicate as the spec words it:
`hideCompleted == false OR item.completed == false`. -/
def specVisible (s : AppState) : List Item :=
  s.todos.filter fun item => decide (s.hideCompleted = false ∨ item.completed = false)

theorem renderDOMList_listChildren (l : List Item) (d : DOM) :
    List.foldl (fun acc item => renderDOMListItem item acc) d l =
      { d with listChildren := d.listChildren ++ l.map renderRow } := by
  induction l generalizing d with
  | nil => simp
  | cons a l ih =>
    rw [List.foldl_cons, ih]
    simp [renderDOMListItem, List.append_assoc]

theorem render_eq (s : AppState) (d : DOM) :
    render s d =
      ⟨(getVisibleTodos s).map renderRow, (getHelperMessage s).getD "",
        getFormClassName s, d.inputValue, d.inputFocused⟩ := by
  simp [render, renderDOMHelperMessage, renderDOMFormStatus, renderDOMList,
    resetDOMList, renderDOMList_listChildren]

theorem viewOf_render (s : AppState) (d : DOM) :
    viewOf (render s d) = renderView s := by
  simp [render_eq, viewOf, renderView]

theorem toggleAt_length (l : List Item) (i : Nat) :
    (toggleAt l i).length = l.length := by
  induction l generalizing i with
  | nil => rfl
  | cons a l ih => cases i <;> simp [toggleAt, ih]

theorem toggleAt_getElem_self (l : List Item) (i : Nat) :
    (toggleAt l i)[i]? = l[i]?.map flipItem := by
  induction l generalizing i with
  | nil => simp [toggleAt]
  | cons a l ih => cases i <;> simp [toggleAt, ih]

theorem toggleAt_getElem_other (l : List Item) (i j : Nat) (h : j ≠ i) :
    (toggleAt l i)[j]? = l[j]? := by
  induction l generalizing i j with
  | nil => simp [toggleAt]
  | cons a l ih =>
    cases i with
    | zero =>
      cases j with
      | zero => exact absurd rfl h
      | succ j => simp [toggleAt]
    | succ i =>
      cases j with
      | zero => simp [toggleAt]
      | succ j => simpa [toggleAt] using ih i j (by omega)

/-- Claim C1: after every state mutation performed by an event handler
(add item with non-empty input, row click, validity keystroke,
hide-completed toggle), the document's rendered view equals the pure
projection `renderView` of the state snapshot taken at render time. -/
theorem c1_view_is_pure_projection (s : AppState) (d : DOM) (v : String)
    (b : Bool) (i : Nat) (hne : d.inputValue ≠ "") :
    viewOf (handleSubmit s d).2 = renderView (handleSubmit s d).1 ∧
    viewOf (clickTodo s i d).2 = renderView (clickTodo s i d).1 ∧
    viewOf (handleForm s v d).2 = renderView (handleForm s v d).1 ∧
    viewOf (handleHide s b d).2 = renderView (handleHide s b d).1 := by
  refine ⟨?_, viewOf_render _ _, viewOf_render _ _, viewOf_render _ _⟩
  simp only [handleSubmit, if_neg hne]
  simp [viewOf, render_eq, renderView]

/-- Witness for C1 at the seed state with input value `"x"`. -/
theorem c1_view_is_pure_projection_witness :
    viewOf (handleSubmit initialState ⟨[], "", "", "x", false⟩).2 =
      renderView (handleSubmit initialState ⟨[], "", "", "x", false⟩).1 :=
  (c1_view_is_pure_projection initialState ⟨[], "", "", "x", false⟩ "a" true 0
    (by decide)).1

/-- Claim C2: the visible items are exactly those satisfying
`hideCompleted == false OR item.completed == false`, in the original
relative order (the visible list is a sublist of `todos`). -/
theorem c2_visible_filter (s : AppState) :
    getVisibleTodos s = specVisible s ∧
    (getVisibleTodos s).Sublist s.todos ∧
    (renderView s).rows = (getVisibleTodos s).map renderRow := by
  refine ⟨?_, List.filter_sublist _, rfl⟩
  unfold getVisibleTodos specVisible
  congr 1
  funext item
  cases hc : s.hideCompleted <;> cases hi : item.completed <;> simp [hc, hi]

/-- Claim C3: submitting with empty input leaves the state untouched:
same record, same list, same length; the handler is total (no
exception path exists in the model). -/
theorem c3_empty_submit_noop (s : AppState) (d : DOM)
    (h : d.inputValue = "") :
    (handleSubmit s d).1 = s ∧
    (handleSubmit s d).1.todos = s.todos ∧
    (handleSubmit s d).1.todos.length = s.todos.length := by
  simp [handleSubmit, h]

/-- Witness for C3 at the seed state with an empty input. -/
theorem c3_empty_submit_noop_witness :
    (handleSubmit initialState ⟨[], "", "", "", false⟩).1 = initialState :=
  (c3_empty_submit_noop initialState ⟨[], "", "", "", false⟩ rfl).1

/-- Claim C4: submitting with non-empty input value appends
`{ text := value, completed := false }` as the last item, the view then
equals the pure projection of the new state, and the input is cleared
and refocused only afterwards: the appended text is the pre-clear
value, the final input value is empty, and in the step trace the push
precedes the render, which precedes the clear. -/
theorem c4_submit_appends (s : AppState) (d : DOM)
    (h : d.inputValue ≠ "") :
    (handleSubmit s d).1.todos = s.todos ++ [⟨d.inputValue, false⟩] ∧
    (handleSubmit s d).1.hideCompleted = s.hideCompleted ∧
    (handleSubmit s d).1.formIsValid = s.formIsValid ∧
    viewOf (handleSubmit s d).2 = renderView (handleSubmit s d).1 ∧
    (handleSubmit s d).2.inputValue = "" ∧
    (handleSubmit s d).2.inputFocused = true ∧
    handleSubmitTrace d.inputValue =
      [SubmitStep.preventDefault, SubmitStep.stopPropagation,
        SubmitStep.pushTodo, SubmitStep.renderCall, SubmitStep.clearInput,
        SubmitStep.focusInput] ∧
    (handleSubmitTrace d.inputValue).indexOf SubmitStep.pushTodo <
      (handleSubmitTrace d.inputValue).indexOf SubmitStep.renderCall ∧
    (handleSubmitTrace d.inputValue).indexOf SubmitStep.renderCall <
      (handleSubmitTrace d.inputValue).indexOf SubmitStep.clearInput := by
  have ht : handleSubmitTrace d.inputValue =
      [SubmitStep.preventDefault, SubmitStep.stopPropagation,
        SubmitStep.pushTodo, SubmitStep.renderCall, SubmitStep.clearInput,
        SubmitStep.focusInput] := by
    simp [handleSubmitTrace, h]
  refine ⟨?_, ?_, ?_, ?_, ?_, ?_, ht, ?_, ?_⟩
  · simp [handleSubmit, h]
  · simp [handleSubmit, h]
  · simp [handleSubmit, h]
  · simp only [handleSubmit, if_neg h]
    simp [viewOf, render_eq, renderView]
  · simp only [handleSubmit, if_neg h]
  · simp only [handleSubmit, if_neg h]
  · rw [ht]; decide
  · rw [ht]; decide

/-- Witness for C4 with input value `"buy eggs"` on the seed state. -/
theorem c4_submit_appends_witness :
    (handleSubmit initialState ⟨[], "", "", "buy eggs", false⟩).1.todos =
      initialState.todos ++ [⟨"buy eggs", false⟩] :=
  (c4_submit_appends initialState ⟨[], "", "", "buy eggs", false⟩
    (by decide)).1

/-- Claim C5: clicking a visible row flips the `completed` flag of
exactly the item it displays, keeps its text, leaves every other item
unchanged, mutates no other state field, and the re-render reflects
the flip: the view equals the projection of the new state and the
row's `is-done` marker toggles. -/
theorem c5_click_flips_one (s : AppState) (d : DOM) (i : Nat)
    (item : Item) (hit : s.todos[i]? = some item)
    (hvis : item ∈ getVisibleTodos s) :
    (clickTodo s i d).1.todos[i]? = some ⟨item.text, !item.completed⟩ ∧
    (∀ j, j ≠ i → (clickTodo s i d).1.todos[j]? = s.todos[j]?) ∧
    (clickTodo s i d).1.todos.length = s.todos.length ∧
    (clickTodo s i d).1.hideCompleted = s.hideCompleted ∧
    (clickTodo s i d).1.formIsValid = s.formIsValid ∧
    viewOf (clickTodo s i d).2 = renderView (clickTodo s i d).1 ∧
    (renderRow ⟨item.text, !item.completed⟩).className =
      (if item.completed then "" else "is-done") := by
  refine ⟨?_, ?_, ?_, rfl, rfl, viewOf_render _ _, ?_⟩
  · show (toggleAt s.todos i)[i]? = _
    rw [toggleAt_getElem_self, hit]
    rfl
  · intro j hj
    exact toggleAt_getElem_other s.todos i j hj
  · exact toggleAt_length s.todos i
  · cases hc : item.completed <;> simp [renderRow, hc]

/-- Witness for C5: clicking the second seed row (`"clean kitchen"`,
not completed, visible) marks it completed. -/
theorem c5_click_flips_one_witness :
    (clickTodo initialState 1 ⟨[], "", "", "", false⟩).1.todos[1]? =
      some ⟨"clean kitchen", true⟩ :=
  (c5_click_flips_one initialState ⟨[], "", "", "", false⟩ 1
    ⟨"clean kitchen", false⟩ (by decide) (by decide)).1

/-- Claim C6: the helper message is the fixed non-empty string
`"Create your first task!"` exactly when no item is visible, and is
absent (`none`, rendered as the empty string) whenever at least one
item is visible. -/
theorem c6_helper_message (s : AppState) (d : DOM) :
    ((getVisibleTodos s).length = 0 →
      getHelperMessage s = some "Create your first task!" ∧
      (render s d).helperHTML = "Create your first task!") ∧
    (1 ≤ (getVisibleTodos s).length →
      getHelperMessage s = none ∧ (render s d).helperHTML = "") ∧
    "Create your first task!" ≠ "" := by
  refine ⟨?_, ?_, by decide⟩
  · intro h0
    constructor
    · simp [getHelperMessage, h0]
    · simp [render_eq, getHelperMessage, h0]
  · intro h1
    have hne : ¬ (getVisibleTodos s).length = 0 := by omega
    constructor
    · simp [getHelperMessage, hne]
    · simp [render_eq, getHelperMessage, hne]

/-- Witness for C6: with no todos the message is shown; at the seed
state (three todos, none hidden) it is absent. -/
theorem c6_helper_message_witness :
    (getHelperMessage ⟨false, false, []⟩ = some "Create your first task!" ∧
      (render ⟨false, false, []⟩ ⟨[], "", "", "", false⟩).helperHTML =
        "Create your first task!") ∧
    (getHelperMessage initialState = none ∧
      (render initialState ⟨[], "", "", "", false⟩).helperHTML = "") :=
  ⟨(c6_helper_message ⟨false, false, []⟩ ⟨[], "", "", "", false⟩).1
      (by decide),
    (c6_helper_message initialState ⟨[], "", "", "", false⟩).2.1
      (by decide)⟩

/-- Claim C7: the filter handler sets `hideCompleted` to the
checkbox's checked value and changes nothing else: the todos list is
identical (same length, same elements, same order) and `formIsValid`
is untouched; only the rendered view changes, to the projection of the
new state. -/
theorem c7_hide_sets_flag_only (s : AppState) (d : DOM) (b : Bool) :
    (handleHide s b d).1.hideCompleted = b ∧
    (handleHide s b d).1.todos = s.todos ∧
    (handleHide s b d).1.todos.length = s.todos.length ∧
    (handleHide s b d).1.formIsValid = s.formIsValid ∧
    viewOf (handleHide s b d).2 = renderView (handleHide s b d).1 :=
  ⟨rfl, rfl, rfl, rfl, viewOf_render _ _⟩

/-- Claim C8: the validity handler sets
`formIsValid = (value.length > 0)`, re-renders, touches nothing else,
and is idempotent: running it again on its own output with the same
value returns the same state and the same document. -/
theorem c8_form_validity (s : AppState) (d : DOM) (v : String) :
    (handleForm s v d).1.formIsValid = decide (v.length > 0) ∧
    (handleForm s v d).1.todos = s.todos ∧
    (handleForm s v d).1.hideCompleted = s.hideCompleted ∧
    viewOf (handleForm s v d).2 = renderView (handleForm s v d).1 ∧
    handleForm (handleForm s v d).1 v (handleForm s v d).2 =
      handleForm s v d := by
  refine ⟨rfl, rfl, rfl, viewOf_render _ _, ?_⟩
  simp [handleForm, render_eq]

/-- Claim C9: the emptiness guard is a raw falsiness test with no
trimming: any non-empty input value, a whitespace-only string
included, is appended verbatim as the new item's text. -/
theorem c9_raw_emptiness_guard (s : AppState) (d : DOM)
    (h : d.inputValue ≠ "") :
    (handleSubmit s d).1.todos = s.todos ++ [⟨d.inputValue, false⟩] := by
  simp [handleSubmit, h]

/-- Witness for C9: a whitespace-only input value is appended as-is. -/
theorem c9_raw_emptiness_guard_witness :
    (handleSubmit initialState ⟨[], "", "", "   ", false⟩).1.todos =
      initialState.todos ++ [⟨"   ", false⟩] :=
  c9_raw_emptiness_guard initialState ⟨[], "", "", "   ", false⟩ (by decide)

/-- Claim C10: on the empty-input path `handleSubmit` returns before
any rendering or input side effect: state and document are returned
unchanged, and the step trace stops at the guard, containing no
render, clear or focus step. -/
theorem c10_empty_submit_atomic (s : AppState) (d : DOM)
    (h : d.inputValue = "") :
    handleSubmit s d = (s, d) ∧
    viewOf (handleSubmit s d).2 = viewOf d ∧
    (handleSubmit s d).2.inputValue = d.inputValue ∧
    (handleSubmit s d).2.inputFocused = d.inputFocused ∧
    handleSubmitTrace d.inputValue =
      [SubmitStep.preventDefault, SubmitStep.stopPropagation,
        SubmitStep.guardReturn] ∧
    SubmitStep.renderCall ∉ handleSubmitTrace d.inputValue ∧
    SubmitStep.clearInput ∉ handleSubmitTrace d.inputValue ∧
    SubmitStep.focusInput ∉ handleSubmitTrace d.inputValue := by
  have he : handleSubmit s d = (s, d) := by simp [handleSubmit, h]
  have ht : handleSubmitTrace d.inputValue =
      [SubmitStep.preventDefault, SubmitStep.stopPropagation,
        SubmitStep.guardReturn] := by
    simp [handleSubmitTrace, h]
  refine ⟨he, by rw [he], by rw [he], by rw [he], ht, ?_, ?_, ?_⟩
    <;> rw [ht] <;> decide

/-- Witness for C10 at the seed state with an empty input. -/
theorem c10_empty_submit_atomic_witness :
    handleSubmit initialState ⟨[], "", "", "", false⟩ =
      (initialState, ⟨[], "", "", "", false⟩) :=
  (c10_empty_submit_atomic initialState ⟨[], "", "", "", false⟩ rfl).1
